import Mathlib

/-!
Verification of the prompt generator in src/prompt-generator.py.

The program builds a fixed instructional template (dedented with
textwrap.dedent), optionally appends a context section, and renders it
with Python str.format, passing the keyword arguments feature_name,
spec and context.  The CLI reads the specification from a file or from
standard input, reads an optional context file, and echoes the rendered
document to standard output.

The embedding below mirrors the source: the template is transcribed
line by line exactly as textwrap.dedent leaves it (the common 4-space
margin removed, whitespace-only lines emptied), str.format is modelled
by a left-to-right scanner that substitutes each replacement field once
without rescanning the substituted values, and the click-based entry
point is modelled as a function from (filesystem, stdin, arguments) to
a process result recording stdout, stderr, the exit code and whether
standard input was consumed.
-/

/-- Lines of the main template of format_prompt before the final
Project/Feature Specification section, after textwrap.dedent: the
4-space margin is removed and the single whitespace-only line is
emptied, exactly as textwrap.dedent does. -/
def preHeadLines : List String := [
"# System Prompt: AI Coding Prompt Generator",
"",
"## Role:",
"",
"You are an expert assistant specializing in generating precise, structured, and actionable coding prompts for Large Language Models (LLMs) designed for code generation (like GitHub Copilot, aider, Claude Code, or custom models). Your expertise lies in breaking down complex software projects into implementable, test-driven incremental steps.",
"",
"## Goal:",
"",
"Your primary objective is to transform a high-level project/feature specification and relevant project context into a series of discrete, atomic prompts for a code-generation LLM that will implement each step in a test-driven manner. Each prompt should represent a single, self-contained, testable unit of work that builds toward the complete implementation.",
"",
"## Your Workflow:",
"",
"1. **Analyze & Understand**: ",
"- Thoroughly review the specification and context to understand the project\x27s requirements, constraints, and existing architecture",
"- Immediately identify and create a list of all read-only files mentioned in the context",
"- Maintain this READ-ONLY FILES list prominently throughout your process",
"",
"2. **Architecture Planning**: ",
"- Draft a detailed, step-by-step blueprint for building the given project or feature based on the specification",
"- Verify that your architectural approach doesn\x27t require modifying any read-only files",
"- If you detect a potential read-only file modification requirement, revise your architecture to avoid it",
"",
"3. **Iterative Decomposition**: Break down your plan into small, iterative chunks that build on each other. Then review and refactor these chunks to ensure they are:",
"- Small enough to be implemented safely with strong testing",
"- Large enough to represent meaningful progress",
"- Well-defined with clear inputs and outputs",
"- Properly ordered with dependencies managed",
"- Consistently sized (avoid mixing very small and very large tasks)",
"- **CRITICAL**: Each chunk must be verified against the READ-ONLY FILES list to ensure it doesn\x27t modify read-only files",
"",
"4. **Prompt Generation**: Transform each chunk into a precise prompt for a code-generation LLM that:",
"- Clearly states what to implement",
"- Identifies which files to modify (verifying these are NOT read-only files)",
"- Specifies expected behavior and edge cases",
"- Includes guidance on testing",
"- Makes all necessary context explicit",
"- Builds on previous steps while maintaining cohesion",
"- **CRITICAL**: Double-check each prompt against the READ-ONLY FILES list",
"",
"5. **Quality Verification**: Review all prompts to ensure they:",
"- Follow best practices for the target language/framework",
"- Prioritize testability at each step",
"- Maintain consistent coding standards",
"- Address potential edge cases and errors",
"- Create no orphaned or disconnected code",
"- Lead to a complete, working implementation",
"- **CRITICAL**: Perform a final verification that absolutely no steps modify any read-only files",
"",
"## Inputs You Will Receive:",
"",
"1. **Specification:** A comprehensive, developer-ready specification for a project or feature. It will include all relevant requirements, architecture choices, data handling details, error handling strategies, and a testing plan so a developer can immediately begin implementation.",
"",
"2. **Context (optional):** Background information about the software project. This may include architecture overviews, documentation excerpts, existing file structures, technology stacks, and descriptions of relevant existing code components (functions, classes, schemas, etc.).",
"",
"## Output Requirements:",
"",
"Generate all of the prompts for the specification in markdown format adhering to the following format:",
"",
"1. **Title:** A concise, descriptive name for the coding task (5-10 words).",
"",
"2. **High-Level Objective:** A single sentence (15-30 words) summarizing the main goal of the code request. What is being built or changed at a high level?",
"",
"3. **Mid-Level Objectives:** A bulleted list of 3-7 concrete, measurable sub-goals or milestones. Each should:",
"- Describe a key step needed to achieve the main goal",
"- Be testable and verify-able",
"- Focus on outcomes rather than implementation details",
"- Use active voice and specific terminology",
"",
"4. **Implementation Notes:**",
"- **Technical Requirements:** Language, framework, library versions, etc.",
"- **Constraints:** Performance, security, compatibility requirements",
"- **Dependencies:** External services, APIs, or systems",
"- **Standards:** Coding conventions, patterns, or best practices to follow",
"- **Testing Strategy:** Approach for verifying implementation (unit tests, integration tests, etc.)",
"- **Error Handling:** Expected errors and how they should be managed",
"",
"5. **Context:**",
"* **Beginning Context:** A list of relevant relative file paths that exist *before* the task begins.",
"    * Suffix read-only files (those that should *not* be modified by the task) with `(read-only)`. **Files marked `(read-only)` here must NEVER be edited, modified, updated, or changed in any way during the task.**",
"    * List *only* files, not directories.",
"    * Include any configuration files, schemas, or interfaces needed for context.",
"    * **Important**: Create a separate section called \"READ-ONLY FILES\" at the beginning that explicitly lists all files marked as read-only, making them extremely visible.",
"* **Ending Context:** A list of relevant relative file paths that will exist *after* the task is completed.",
"    * Suffix newly created files with `(new file)`.",
"    * Suffix read-only files with `(read-only)`.",
"    * **Constraint:** Files marked `(read-only)` in the Beginning Context **must** also be marked `(read-only)` in the Ending Context.",
"    * List *only* files, not directories.",
"    * **Constraint:** There must be at least one non-read-only file listed in the ending context for the task to be valid.",
"",
"6. **Detailed Steps (Low-Level Tasks):**",
"* An ordered, numbered list of discrete, atomic tasks required to fulfill the mid-level objectives.",
"* Each step must represent a single, complete action (e.g., create a function, update a class method, modify a configuration). Do *not* create sub-tasks within a step.",
"* Each step should be independently testable.",
"* Break down complex operations into multiple simpler steps.",
"* **For each step, provide a clear, concise instruction prompt suitable for a code-generation LLM.** This prompt should:",
"    * Start with a clear action keyword indicating the primary operation (e.g., `CREATE`, `UPDATE`, `ADD`, `REMOVE`, `REFACTOR`, `MODIFY`, `IMPLEMENT`, `DELETE`, `TEST`).",
"    * Specify the target file path (relative path).",
"    * **CRITICAL CONSTRAINT:** Before writing any step, verify that it does not involve modifying read-only files. Steps involving modification actions (e.g., `UPDATE`, `MODIFY`, `ADD`, `REMOVE`, `DELETE`, `REFACTOR`) **MUST NEVER** target files marked as `(read-only)` in the Beginning Context. Always check against your READ-ONLY FILES list before writing a step.",
"    * All modification operations (e.g., `UPDATE`, `MODIFY`, `ADD`, `REMOVE`, `DELETE`, `REFACTOR`) must only be applied to files that:",
"        1. Already exist and are not marked as read-only, OR",
"        2. Will be created as new files during this task",
"    * If applicable, specify the target within the file (e.g., function name, class name, variable name, specific section). Use a consistent format like `CREATE function_name(...)` or `UPDATE class_name method_name`.",
"    * Include essential, information-dense keywords or instructions detailing *what* needs to be done (e.g., \"add parameter `x: int`\", \"implement logic to filter list based on `y`\", \"remove `z` property\", \"refactor to use `new_library`\").",
"    * Specify expected behaviors, edge cases, and error handling considerations for the implementation.",
"    * Include guidance on how to test the implementation (e.g., \"ensure validation for empty input\", \"verify correct error response when API is unavailable\").",
"    * Focus on *instructing* the LLM on the change, **do not provide the full code implementation** yourself within the step\x27s instruction prompt.",
"",
"Output each prompt to a separate markdown file in the `specs/tasks/[[feature-name]]` directory. Each file should be named after the step number and a brief description of the task (ex. `01-create-user-model.md`, `02-implement-authentication.md`, etc.).",
"",
"Generate a todo list containing all of the prompts in the `specs/tasks/[[feature-name]]` directory. Output the todo list to a file in the `specs/tasks/[[feature-name]]` directory named `todo.md`. Include:",
"1. Estimated complexity (Low/Medium/High) for each task",
"2. A clear marking of which files will be modified by each task",
"3. A section at the top titled \"READ-ONLY FILES\" that lists all files that must never be modified",
"4. A final verification checklist that confirms no tasks modify read-only files",
"",
"## Core Principles & Guidelines:",
"",
"1. **Analyze Thoroughly:** Carefully analyze both the project context and the specification to understand the current state, the desired outcome, and the necessary steps.",
"",
"2. **Clarity and Precision:** Use clear, unambiguous language. Ensure instructions are specific enough to avoid misinterpretation by the code-generation LLM.",
"",
"3. **Atomicity:** Break down the overall task into the smallest logical, independent steps possible, suitable for test-driven implementation. Each step should be independently testable.",
"",
"4. **Context Accuracy:** Ensure the Beginning and Ending Context accurately reflect the files relevant to the task and their modification status (read-only, new). Use relative paths consistently. Adhere strictly to the read-only constraints.",
"",
"5. **Respect Read-Only Files:** ",
"* NEVER generate steps that instruct modification of files designated as `(read-only)` in the beginning context. ",
"* READ-ONLY means ABSOLUTELY NO CHANGES - no updates, no modifications, no additions, no deletions, no refactoring.",
"* These files must remain completely unchanged throughout the task.",
"* Before finalizing each step, explicitly verify it does not modify any read-only file by checking against your READ-ONLY FILES list.",
"* After completing all steps, perform a final verification pass to ensure no read-only files are modified.",
"* If a step appears to require modifying a read-only file, rethink the approach entirely - create a new file, use a different pattern, or find another solution that doesn\x27t modify read-only content.",
"",
"6. **Instruction Focus:** The Detailed Steps should contain *prompts* instructing the code-generation LLM, not the implementation code itself.",
"",
"7. **Structure Adherence:** Strictly follow the specified output format (Title, Objectives, Notes, Context, Steps) within the generated prompt files.",
"",
"8. **Information Density:** Use concise keywords and phrases in the step prompts to convey maximum necessary information efficiently.",
"",
"9. **No Simulation:** Generate the specification text and prompts directly; do not simulate tool calls or interactions.",
"",
"10. **Test-Driven Mindset:** Ensure the breakdown into steps facilitates writing tests *before* or *alongside* the implementation code for each step. Include explicit test creation steps where appropriate.",
"",
"11. **Incremental Integration:** Each step\x27s prompt should logically build upon the previous ones, ensuring code is integrated continuously. Avoid orphaned code.",
"",
"12. **Error Handling:** Include explicit instructions for error handling, validation, and edge cases in each step.",
"",
"13. **Balanced Step Size:** Maintain consistent granularity across steps. Avoid mixing very small tasks with very large ones.",
"",
"14. **Implementation-Agnostic:** Focus on describing what needs to be done rather than dictating exactly how it should be implemented. Allow the code-generation LLM some flexibility within constraints.",
"",
"15. **Dependency Awareness:** Ensure that step dependencies are clear and that steps are ordered to minimize conflicts and integration issues.",
"",
"16. **Read-Only Protection:** Implement a multi-level verification system to ensure read-only files are never modified:",
"    - Create and maintain a prominent READ-ONLY FILES list from the beginning",
"    - Verify each architectural decision against this list",
"    - Check each decomposed chunk against this list",
"    - Verify each prompt against this list before finalizing",
"    - Perform a final verification pass across all prompts",
"    - If a modification to a read-only file seems necessary, completely rethink the approach",
""]

/-- Lines of the main template of format_prompt after textwrap.dedent:
the lines before the last section followed by the Project/Feature
Specification heading, a blank line, and the fenced block holding the
spec replacement field. -/
def templateLines : List String :=
  preHeadLines ++ ["## Project/Feature Specification:", "", "```markdown", "\x7bspec\x7d", "```"]

/-- Joins lines with newline separators, with no trailing newline, as
the template literal lays its lines out in the source. -/
def joinLines : List String → String
  | [] => ""
  | [l] => l
  | l :: ls => l ++ "\n" ++ joinLines ls

/-- Main template string of format_prompt (the dedent result has no
trailing newline: the source closes the triple quote right after the
final fence). -/
def mainTemplate : String := joinLines templateLines

/-- Context section template appended by format_prompt when the context
argument is truthy, after textwrap.dedent (the literal starts with a
newline, so the result begins with a blank line separating it from the
main template). -/
def contextTemplate : String := "\n\n## Existing Context:\n\n```markdown\n\x7bcontext\x7d\n```"

/-- Opening brace character of a str.format replacement field. -/
def lbrace : Char := Char.ofNat 123

/-- Closing brace character of a str.format replacement field. -/
def rbrace : Char := Char.ofNat 125

/-- Python truthiness of an optional string: None and the empty string
are falsy, every other string is truthy. -/
def pyTruthy : Option String → Bool
  | none => false
  | some s => !(s == "")

/-- Value of the context keyword argument as str.format renders it: a
string renders as itself and None renders as the string None. -/
def pyStrOfOption : Option String → String
  | none => "None"
  | some s => s

/-- Scanner for Python str.format restricted to the simple named
replacement fields occurring in this program.  It walks the template
left to right; outside a field (state none) an opening brace starts a
field and every other character is copied; inside a field (state some
acc) characters accumulate until the closing brace, which emits the
value of the field name under env.  Substituted values are emitted as
is, never rescanned, matching str.format. -/
def pyFormatAux (env : String → String) : List Char → Option (List Char) → List Char
  | [], _ => []
  | c :: rest, none =>
    if c = lbrace then pyFormatAux env rest (some [])
    else c :: pyFormatAux env rest none
  | c :: rest, some acc =>
    if c = rbrace then (env (String.mk acc.reverse)).data ++ pyFormatAux env rest none
    else pyFormatAux env rest (some (c :: acc))

/-- Renders a template with str.format under the given environment. -/
def pyFormat (template : String) (env : String → String) : String :=
  String.mk (pyFormatAux env template.data none)

/-- Embeds format_prompt of src/prompt-generator.py: start from the
main template, append the context section when the context argument is
truthy (the source guards with `if context:`), then render with
str.format passing feature_name, spec and context as keyword
arguments.  Unknown field names do not occur in the template. -/
def format_prompt (feature_name spec : String) (context : Option String) : String :=
  let template := mainTemplate
  let template := if pyTruthy context then template ++ contextTemplate else template
  pyFormat template (fun name =>
    if name = "feature_name" then feature_name
    else if name = "spec" then spec
    else if name = "context" then pyStrOfOption context
    else "")

/-- Result of one process run of the CLI: bytes written to standard
output and to the error stream, the exit code, and whether standard
input was read. -/
structure ProcResult where
  stdout : String
  stderr : String
  exitCode : Nat
  stdinRead : Bool
deriving DecidableEq

/-- Prompt line that main writes to the error stream (click.echo with
err=True appends a newline) before blocking on standard input. -/
def promptMsg : String := "Enter feature specification (press Ctrl+D when finished):\n"

/-- Error text click writes to the error stream when a file option
cannot be opened (a UsageError: usage summary plus an error line built
from the option name, the path and the reason the open failed). -/
def clickBadFileMsg (optName path : String) : String :=
  "Usage: main [OPTIONS] FEATURE_NAME\nTry \x27main --help\x27 for help.\n\nError: Invalid value for \x27" ++ optName ++ "\x27: \x27" ++ path ++ "\x27: could not open file\n"

/-- Exit code of a click UsageError, raised when an option of type
click.File cannot open its path. -/
def usageErrorExit : Nat := 2

/-- Embeds main of src/prompt-generator.py.  fs maps a path to its
contents, or none when the path cannot be opened (missing, a
directory, or unreadable).  click opens the spec file and the context
file while parsing the arguments, before the body runs, and aborts
with a UsageError (message on the error stream, nothing on standard
output, exit code 2) on the first open failure; the body then reads
the spec from the opened file, or else prompts on the error stream and
reads all of standard input, reads the context file if one was given,
renders with format_prompt and echoes the document plus a newline to
standard output. -/
def runMain (fs : String → Option String) (stdin feature_name : String)
    (spec_file context_file : Option String) : ProcResult :=
  match spec_file with
  | some p =>
    match fs p with
    | none => ProcResult.mk "" (clickBadFileMsg "--spec-file / -f" p) usageErrorExit false
    | some spec =>
      match context_file with
      | some q =>
        match fs q with
        | none => ProcResult.mk "" (clickBadFileMsg "--context-file / -c" q) usageErrorExit false
        | some ctx => ProcResult.mk (format_prompt feature_name spec (some ctx) ++ "\n") "" 0 false
      | none => ProcResult.mk (format_prompt feature_name spec none ++ "\n") "" 0 false
  | none =>
    match context_file with
    | some q =>
      match fs q with
      | none => ProcResult.mk "" (clickBadFileMsg "--context-file / -c" q) usageErrorExit false
      | some ctx => ProcResult.mk (format_prompt feature_name stdin (some ctx) ++ "\n") promptMsg 0 true
    | none => ProcResult.mk (format_prompt feature_name stdin none ++ "\n") promptMsg 0 true

/-- Data of an appended string is the appended character data. -/
theorem strDataAppend (a b : String) : (a ++ b).data = a.data ++ b.data := by
  cases a; cases b; rfl

/-- Rebuilding a string from its character data is the identity. -/
theorem strMkData (s : String) : String.mk s.data = s := rfl

/-- String.mk turns list append into string append. -/
theorem strMkAppend (l₁ l₂ : List Char) : String.mk (l₁ ++ l₂) = String.mk l₁ ++ String.mk l₂ := rfl

/-- String append is associative. -/
theorem strAppendAssoc (a b c : String) : a ++ b ++ c = a ++ (b ++ c) := by
  cases a; cases b; cases c; simp [← strMkAppend, List.append_assoc]

/-- State of the str.format scanner after consuming a character list:
none when outside a replacement field, some acc when inside one, acc
holding the reversed field name read so far. -/
def scanState : List Char → Option (List Char) → Option (List Char)
  | [], st => st
  | c :: rest, none => if c = lbrace then scanState rest (some []) else scanState rest none
  | c :: rest, some acc => if c = rbrace then scanState rest none else scanState rest (some (c :: acc))

/-- Scanning an appended template splits at any point where the
scanner sits outside a replacement field. -/
theorem pyFormatAux_append (env : String → String) (a : List Char) :
    ∀ (st : Option (List Char)), scanState a st = none →
      ∀ b, pyFormatAux env (a ++ b) st = pyFormatAux env a st ++ pyFormatAux env b none := by
  induction a with
  | nil =>
    intro st hst b
    simp only [scanState] at hst
    subst hst
    simp [pyFormatAux]
  | cons c rest ih =>
    intro st hst b
    cases st with
    | none =>
      by_cases hc : c = lbrace
      · simp only [List.cons_append, pyFormatAux, scanState, if_pos hc] at hst ⊢
        exact ih (some []) hst b
      · simp only [List.cons_append, pyFormatAux, scanState, if_neg hc] at hst ⊢
        exact congrArg (List.cons c) (ih none hst b)
    | some acc =>
      by_cases hc : c = rbrace
      · simp only [List.cons_append, pyFormatAux, scanState, if_pos hc] at hst ⊢
        rw [List.append_assoc]
        exact congrArg (fun x => (env (String.mk acc.reverse)).data ++ x) (ih none hst b)
      · simp only [List.cons_append, pyFormatAux, scanState, if_neg hc] at hst ⊢
        exact ih (some (c :: acc)) hst b

/-- Character lists holding neither brace of a replacement field. -/
def braceFree (l : List Char) : Prop := ∀ c ∈ l, ¬(c = lbrace ∨ c = rbrace)

instance (l : List Char) : Decidable (braceFree l) := List.decidableBAll _ l

/-- The scanner stays outside a field along brace-free text. -/
theorem scanState_braceFree (l : List Char) (h : braceFree l) : scanState l none = none := by
  induction l with
  | nil => rfl
  | cons c rest ih =>
    have hc := h c (List.mem_cons_self c rest)
    have hrest : braceFree rest := fun x hx => h x (List.mem_cons_of_mem c hx)
    simp only [scanState, if_neg (fun h1 => hc (Or.inl h1))]
    exact ih hrest

/-- Brace-free text is copied by the scanner unchanged. -/
theorem pyFormatAux_braceFree (env : String → String) (l : List Char) (h : braceFree l) :
    pyFormatAux env l none = l := by
  induction l with
  | nil => rfl
  | cons c rest ih =>
    have hc := h c (List.mem_cons_self c rest)
    have hrest : braceFree rest := fun x hx => h x (List.mem_cons_of_mem c hx)
    simp only [pyFormatAux, if_neg (fun h1 => hc (Or.inl h1))]
    rw [ih hrest]

/-- Inside a field, the scanner accumulates name characters until the
closing brace and then emits the field value. -/
theorem pyFormatAux_accum (env : String → String) (b : List Char) :
    ∀ (l acc : List Char), (∀ c ∈ l, c ≠ rbrace) →
      pyFormatAux env (l ++ rbrace :: b) (some acc) =
        (env (String.mk (acc.reverse ++ l))).data ++ pyFormatAux env b none := by
  intro l
  induction l with
  | nil =>
    intro acc _
    simp [pyFormatAux]
  | cons c rest ih =>
    intro acc h
    have hc := h c (List.mem_cons_self c rest)
    have hrest : ∀ x ∈ rest, x ≠ rbrace := fun x hx => h x (List.mem_cons_of_mem c hx)
    simp only [List.cons_append, pyFormatAux, if_neg hc]
    rw [show acc.reverse ++ c :: rest = (c :: acc).reverse ++ rest by simp]
    exact ih (c :: acc) hrest

/-- Scanning a complete replacement field emits the value of the field
name under the environment. -/
theorem pyFormatAux_field (env : String → String) (name : String) (b : List Char)
    (h : ∀ c ∈ name.data, c ≠ rbrace) :
    pyFormatAux env (lbrace :: (name.data ++ rbrace :: b)) none =
      (env name).data ++ pyFormatAux env b none := by
  simp only [pyFormatAux, if_pos rfl]
  rw [pyFormatAux_accum env b name.data [] h]
  simp [strMkData]

/-- Scanning brace-free text followed by a replacement field copies the
text and emits the field value. -/
theorem pyFormatAux_chunk (env : String → String) (a : List Char) (ha : braceFree a)
    (name : String) (hname : ∀ c ∈ name.data, c ≠ rbrace) (b : List Char) :
    pyFormatAux env (a ++ (lbrace :: (name.data ++ rbrace :: b))) none =
      a ++ (env name).data ++ pyFormatAux env b none := by
  rw [pyFormatAux_append env a none (scanState_braceFree a ha),
    pyFormatAux_braceFree env a ha, pyFormatAux_field env name b hname, List.append_assoc]

/-- joinLines on a two-or-more element list peels the first line. -/
theorem joinLines_cons_cons (x y : String) (ls : List String) :
    joinLines (x :: y :: ls) = x ++ "\n" ++ joinLines (y :: ls) := rfl

/-- joinLines on a singleton is the line itself. -/
theorem joinLines_singleton (x : String) : joinLines [x] = x := rfl

/-- joinLines of two nonempty line lists appended splits on a newline. -/
theorem joinLines_append : ∀ (a b : List String), a ≠ [] → b ≠ [] →
    joinLines (a ++ b) = joinLines a ++ "\n" ++ joinLines b
  | [], _, ha, _ => absurd rfl ha
  | [x], [], _, hb => absurd rfl hb
  | [x], y :: ys, _, _ => by
    rw [List.singleton_append, joinLines_cons_cons, joinLines_singleton]
  | x :: z :: zs, b, _, hb => by
    have ih := joinLines_append (z :: zs) b (by simp) hb
    rw [List.cons_append] at ih
    rw [List.cons_append, List.cons_append, joinLines_cons_cons, ih, joinLines_cons_cons]
    simp [strAppendAssoc]

/-- Lines of the main template before the spec replacement field: all
lines up to and including the opening of the fenced spec block. -/
def preSpecLines : List String :=
  preHeadLines ++ ["## Project/Feature Specification:", "", "```markdown"]

/-- The spec replacement field of the template. -/
def fieldSpec : String := "\x7bspec\x7d"

/-- The context replacement field of the context section template. -/
def fieldCtx : String := "\x7bcontext\x7d"

/-- Fixed text of the main template before the spec value. -/
def specPart1 : String := joinLines preSpecLines ++ "\n"

/-- Fixed text of the main template after the spec value. -/
def specPart2 : String := "\n```"

/-- Fixed text of the context section before the context value. -/
def ctxPart1 : String := "\n\n## Existing Context:\n\n```markdown\n"

/-- Fixed text of the context section after the context value. -/
def ctxPart2 : String := "\n```"

/-- The template lines are the pre-field lines, the field line, and the
closing fence. -/
theorem templateLines_split : templateLines = preSpecLines ++ [fieldSpec, "```"] := by
  simp [templateLines, preSpecLines, fieldSpec]

/-- The pre-field line list is nonempty. -/
theorem preSpecLines_ne_nil : preSpecLines ≠ [] := by
  simp [preSpecLines]

/-- The main template splits around its spec replacement field. -/
theorem mainTemplate_split : mainTemplate = specPart1 ++ fieldSpec ++ specPart2 := by
  have h1 : ("\n" : String) ++ "```" = "\n```" := by decide
  rw [mainTemplate, templateLines_split,
    joinLines_append preSpecLines [fieldSpec, "```"] preSpecLines_ne_nil (by simp),
    joinLines_cons_cons, joinLines_singleton, specPart1, specPart2]
  rw [strAppendAssoc (joinLines preSpecLines) "\n" (fieldSpec ++ "\n" ++ "```"),
    strAppendAssoc fieldSpec "\n" "```", h1, ← strAppendAssoc,
    ← strAppendAssoc (joinLines preSpecLines ++ "\n") fieldSpec "\n```"]

/-- The context section template splits around its replacement field. -/
theorem contextTemplate_split : contextTemplate = ctxPart1 ++ fieldCtx ++ ctxPart2 := by
  decide

/-- Character data of the spec field: brace, name, brace. -/
theorem fieldSpec_data : fieldSpec.data = lbrace :: ("spec".data ++ [rbrace]) := by decide

/-- Character data of the context field: brace, name, brace. -/
theorem fieldCtx_data : fieldCtx.data = lbrace :: ("context".data ++ [rbrace]) := by decide

/-- Brace-freeness of appended character lists. -/
theorem braceFree_append {a b : List Char} (ha : braceFree a) (hb : braceFree b) :
    braceFree (a ++ b) := by
  intro c hc
  rcases List.mem_append.mp hc with h | h
  · exact ha c h
  · exact hb c h

/-- joinLines of brace-free lines is brace-free. -/
theorem braceFree_joinLines : ∀ (lines : List String),
    (∀ l ∈ lines, braceFree l.data) → braceFree (joinLines lines).data
  | [], _ => by intro c hc; simp [joinLines] at hc
  | [x], h => h x (by simp)
  | x :: z :: zs, h => by
    rw [joinLines_cons_cons, strDataAppend, strDataAppend]
    have hx : braceFree x.data := h x (by simp)
    have hnl : braceFree ("\n" : String).data := by decide
    have hrest := braceFree_joinLines (z :: zs) (fun l hl => h l (List.mem_cons_of_mem x hl))
    exact braceFree_append (braceFree_append hx hnl) hrest

set_option maxRecDepth 40000 in
/-- Every line before the spec field is brace-free. -/
theorem preSpecLines_braceFree : ∀ l ∈ preSpecLines, braceFree l.data := by decide

/-- The fixed text before the spec value is brace-free. -/
theorem specPart1_braceFree : braceFree specPart1.data := by
  rw [specPart1, strDataAppend]
  exact braceFree_append (braceFree_joinLines preSpecLines preSpecLines_braceFree) (by decide)

/-- The fixed text after the spec value is brace-free. -/
theorem specPart2_braceFree : braceFree specPart2.data := by decide

/-- The fixed context text before the context value is brace-free. -/
theorem ctxPart1_braceFree : braceFree ctxPart1.data := by decide

/-- The fixed context text after the context value is brace-free. -/
theorem ctxPart2_braceFree : braceFree ctxPart2.data := by decide

/-- The spec field name holds no closing brace. -/
theorem specName_no_rbrace : ∀ c ∈ ("spec" : String).data, c ≠ rbrace := by decide

/-- The context field name holds no closing brace. -/
theorem contextName_no_rbrace : ∀ c ∈ ("context" : String).data, c ≠ rbrace := by decide

/-- Rendering the main template copies the fixed text and substitutes
the spec field value. -/
theorem pyFormat_mainTemplate (env : String → String) :
    pyFormat mainTemplate env = specPart1 ++ env "spec" ++ specPart2 := by
  have hx : mainTemplate.data =
      specPart1.data ++ (lbrace :: ("spec".data ++ rbrace :: specPart2.data)) := by
    rw [mainTemplate_split]
    simp only [strDataAppend, fieldSpec_data, List.append_assoc, List.cons_append,
      List.singleton_append, List.nil_append]
  rw [pyFormat, hx,
    pyFormatAux_chunk env specPart1.data specPart1_braceFree "spec" specName_no_rbrace
      specPart2.data,
    pyFormatAux_braceFree env specPart2.data specPart2_braceFree]
  have hy : (specPart1 ++ env "spec" ++ specPart2).data =
      specPart1.data ++ (env "spec").data ++ specPart2.data := by
    simp only [strDataAppend]
  rw [← hy, strMkData]

/-- Rendering the main template with the context section appended
copies the fixed text and substitutes both field values. -/
theorem pyFormat_bothTemplates (env : String → String) :
    pyFormat (mainTemplate ++ contextTemplate) env =
      specPart1 ++ env "spec" ++ specPart2 ++ ctxPart1 ++ env "context" ++ ctxPart2 := by
  have hx : (mainTemplate ++ contextTemplate).data =
      specPart1.data ++ (lbrace :: ("spec".data ++ rbrace :: (specPart2.data ++
        (ctxPart1.data ++ (lbrace :: ("context".data ++ rbrace :: ctxPart2.data)))))) := by
    rw [strDataAppend, mainTemplate_split, contextTemplate_split]
    simp only [strDataAppend, fieldSpec_data, fieldCtx_data, List.append_assoc,
      List.cons_append, List.singleton_append, List.nil_append]
  rw [pyFormat, hx,
    pyFormatAux_chunk env specPart1.data specPart1_braceFree "spec" specName_no_rbrace _,
    ← List.append_assoc specPart2.data ctxPart1.data _,
    pyFormatAux_chunk env (specPart2.data ++ ctxPart1.data)
      (braceFree_append specPart2_braceFree ctxPart1_braceFree) "context"
      contextName_no_rbrace ctxPart2.data,
    pyFormatAux_braceFree env ctxPart2.data ctxPart2_braceFree]
  have hy : (specPart1 ++ env "spec" ++ specPart2 ++ ctxPart1 ++ env "context" ++ ctxPart2).data =
      (specPart1.data ++ (env "spec").data) ++
        (((specPart2.data ++ ctxPart1.data) ++ (env "context").data) ++ ctxPart2.data) := by
    simp only [strDataAppend, List.append_assoc]
  rw [← hy, strMkData]

/-- Closed form of format_prompt with no context: the fixed text around
the spec value, with no context section. -/
theorem format_prompt_none (f s : String) :
    format_prompt f s none = specPart1 ++ s ++ specPart2 := by
  show pyFormat mainTemplate (fun name =>
    if name = "feature_name" then f
    else if name = "spec" then s
    else if name = "context" then pyStrOfOption none
    else "") = _
  rw [pyFormat_mainTemplate]
  rfl

/-- Closed form of format_prompt with empty context: the falsy guard
skips the context section, so the output equals the no-context form. -/
theorem format_prompt_someEmpty (f s : String) :
    format_prompt f s (some "") = specPart1 ++ s ++ specPart2 := by
  show pyFormat mainTemplate (fun name =>
    if name = "feature_name" then f
    else if name = "spec" then s
    else if name = "context" then pyStrOfOption (some "")
    else "") = _
  rw [pyFormat_mainTemplate]
  rfl

/-- Closed form of format_prompt with nonempty context: the fixed text
around the spec value followed by the context section around the
context value. -/
theorem format_prompt_some (f s c : String) (hc : c ≠ "") :
    format_prompt f s (some c) =
      specPart1 ++ s ++ specPart2 ++ ctxPart1 ++ c ++ ctxPart2 := by
  have ht : pyTruthy (some c) = true := by simp [pyTruthy, hc]
  show pyFormat (if pyTruthy (some c) = true then mainTemplate ++ contextTemplate
      else mainTemplate) (fun name =>
    if name = "feature_name" then f
    else if name = "spec" then s
    else if name = "context" then pyStrOfOption (some c)
    else "") = _
  rw [ht, if_pos rfl, pyFormat_bothTemplates]
  rfl

/-- Occurrence of a pattern as a contiguous substring of a string. -/
def occursIn (p s : String) : Prop := p.data <:+: s.data

instance (p s : String) : Decidable (occursIn p s) := List.decidableInfix p.data s.data

/-- A leading segment of a list is also a contiguous segment of it. -/
theorem preIsSub {l₁ l₂ : List Char} (h : l₁ <+: l₂) : l₁ <:+: l₂ := by
  rcases h with ⟨t, ht⟩
  exact ⟨[], t, by rw [List.nil_append, ht]⟩

/-- A contiguous segment of a list stays one after a front extension. -/
theorem subCons {l₁ l₂ : List Char} (a : Char) (h : l₁ <:+: l₂) : l₁ <:+: a :: l₂ := by
  rcases h with ⟨s, t, ht⟩
  exact ⟨a :: s, t, by rw [← ht]; rfl⟩

/-- A pattern free of a separator character that starts
text-separator-text also starts the leading text. -/
theorem noSepPre (c : Char) : ∀ (p a b : List Char), (∀ x ∈ p, x ≠ c) →
    p <+: a ++ c :: b → p <+: a
  | [], _, _, _, _ => List.nil_prefix
  | y :: p', [], b, h, hp => by
    rw [List.nil_append] at hp
    rcases List.cons_prefix_cons.mp hp with ⟨h1, _⟩
    exact absurd h1 (h y (List.mem_cons_self y p'))
  | y :: p', z :: a', b, h, hp => by
    rw [List.cons_append] at hp
    rcases List.cons_prefix_cons.mp hp with ⟨h1, h2⟩
    subst h1
    exact List.cons_prefix_cons.mpr
      ⟨rfl, noSepPre c p' a' b (fun x hx => h x (List.mem_cons_of_mem y hx)) h2⟩

/-- A pattern free of a separator character occurs in
text-separator-text exactly when it occurs in one of the two texts. -/
theorem noSepSplit (c : Char) (p : List Char) (hp : ∀ x ∈ p, x ≠ c) :
    ∀ (a b : List Char), (p <:+: a ++ c :: b ↔ p <:+: a ∨ p <:+: b) := by
  intro a
  induction a with
  | nil =>
    intro b
    rw [List.nil_append]
    constructor
    · intro h
      rcases List.infix_cons_iff.mp h with h1 | h1
      · cases p with
        | nil => exact Or.inr List.nil_infix
        | cons y p' =>
          rcases List.cons_prefix_cons.mp h1 with ⟨h2, _⟩
          exact absurd h2 (hp y (List.mem_cons_self y p'))
      · exact Or.inr h1
    · intro h
      rcases h with h | h
      · rw [List.eq_nil_of_infix_nil h]
        exact List.nil_infix
      · exact h.trans ⟨[c], [], by simp⟩
  | cons z a' ih =>
    intro b
    rw [List.cons_append]
    constructor
    · intro h
      rcases List.infix_cons_iff.mp h with h1 | h1
      · have h2 : p <+: (z :: a') ++ c :: b := by rw [List.cons_append]; exact h1
        exact Or.inl (preIsSub (noSepPre c p (z :: a') b hp h2))
      · rcases (ih b).mp h1 with h2 | h2
        · exact Or.inl (subCons z h2)
        · exact Or.inr h2
    · intro h
      rcases h with h | h
      · exact h.trans (preIsSub ⟨c :: b, rfl⟩)
      · have h2 : p <:+: a' ++ c :: b := (ih b).mpr (Or.inr h)
        exact subCons z h2

/-- Character data of joinLines over two or more lines. -/
theorem joinLines_data_cons_cons (x y : String) (ls : List String) :
    (joinLines (x :: y :: ls)).data = x.data ++ '\n' :: (joinLines (y :: ls)).data := by
  rw [joinLines_cons_cons, strDataAppend, strDataAppend,
    show ("\n" : String).data = ['\n'] from rfl]
  simp [List.append_assoc]

/-- A newline-free nonempty pattern occurs in joined lines exactly when
it occurs in one of the lines. -/
theorem occursIn_joinLines (p : String) (hnl : ∀ x ∈ p.data, x ≠ '\n') (hne : p ≠ "") :
    ∀ (lines : List String), (occursIn p (joinLines lines) ↔ ∃ l ∈ lines, occursIn p l)
  | [] => by
    constructor
    · intro h
      have h2 : p.data = [] := List.eq_nil_of_infix_nil h
      have hp : p = "" := by rw [← strMkData p, h2]
      exact absurd hp hne
    · rintro ⟨l, hl, _⟩
      simp at hl
  | [x] => by
    simp only [joinLines_singleton, List.mem_singleton]
    constructor
    · intro h
      exact ⟨x, rfl, h⟩
    · rintro ⟨l, rfl, hocc⟩
      exact hocc
  | x :: y :: ys => by
    have hrec := occursIn_joinLines p hnl hne (y :: ys)
    constructor
    · intro h
      have h2 : p.data <:+: x.data ++ '\n' :: (joinLines (y :: ys)).data := by
        rw [← joinLines_data_cons_cons]
        exact h
      rcases (noSepSplit '\n' p.data hnl x.data _).mp h2 with h3 | h3
      · exact ⟨x, by simp, h3⟩
      · rcases hrec.mp h3 with ⟨l, hl, hocc⟩
        exact ⟨l, List.mem_cons_of_mem x hl, hocc⟩
    · rintro ⟨l, hl, hocc⟩
      show p.data <:+: (joinLines (x :: y :: ys)).data
      rw [joinLines_data_cons_cons]
      refine (noSepSplit '\n' p.data hnl x.data _).mpr ?_
      rcases List.mem_cons.mp hl with h4 | h4
      · subst h4
        exact Or.inl hocc
      · exact Or.inr (hrec.mpr ⟨l, h4, hocc⟩)

/-- The rendered no-context document laid out as lines: the fixed lines
before the fenced block, the substituted spec text, and the closing
fence. -/
theorem rendered_lines (s : String) :
    specPart1 ++ s ++ specPart2 = joinLines (preSpecLines ++ [s, "```"]) := by
  have h1 : ("\n" : String) ++ "```" = "\n```" := by decide
  rw [joinLines_append preSpecLines [s, "```"] preSpecLines_ne_nil (by simp),
    joinLines_cons_cons, joinLines_singleton, specPart1, specPart2]
  simp only [strAppendAssoc, h1]

/-- Heading and fence opening of the specification section. -/
def specHead : String := "## Project/Feature Specification:\n\n```markdown\n"

/-- Fixed text of the main template before the specification heading. -/
def specPre : String := joinLines preHeadLines ++ "\n"

/-- The first template line list is nonempty. -/
theorem preHeadLines_ne_nil : preHeadLines ≠ [] := by decide

/-- The fixed text before the spec value ends with the specification
heading and the fence opening. -/
theorem specPart1_split : specPart1 = specPre ++ specHead := by
  have h2 : (("## Project/Feature Specification:" : String) ++
      ("\n" ++ ("" ++ ("\n" ++ ("```markdown" ++ "\n"))))) =
      "## Project/Feature Specification:\n\n```markdown\n" := by decide
  rw [specPart1, preSpecLines,
    joinLines_append preHeadLines _ preHeadLines_ne_nil (by simp),
    joinLines_cons_cons, joinLines_cons_cons, joinLines_singleton, specPre, specHead]
  simp only [strAppendAssoc, h2]

/-- Appending the empty string on the right is the identity. -/
theorem strAppendNil (s : String) : s ++ "" = s := by
  cases s
  show String.mk _ = _
  rw [List.append_nil]

/-- A string with a nonempty left part is nonempty. -/
theorem strAppend_ne_nil_left (a b : String) (ha : a ≠ "") : a ++ b ≠ "" := by
  intro h
  apply ha
  have h2 : (a ++ b).data = [] := congrArg String.data h
  rw [strDataAppend] at h2
  rcases List.append_eq_nil.mp h2 with ⟨h3, _⟩
  rw [← strMkData a, h3]

/-- The click file error message is never empty. -/
theorem clickBadFileMsg_ne_empty (o p : String) : clickBadFileMsg o p ≠ "" := by
  apply strAppend_ne_nil_left
  apply strAppend_ne_nil_left
  apply strAppend_ne_nil_left
  apply strAppend_ne_nil_left
  decide

set_option maxRecDepth 40000 in
set_option maxHeartbeats 1000000 in
/-- C1: on the failing input (feature_name login-flow, spec text
supplied, no context) the rendered document still contains the literal
placeholder path specs/tasks/[[feature-name]] and does not contain
specs/tasks/login-flow: the template has no feature_name replacement
field, so the feature_name keyword argument passed to str.format is
never consumed, contradicting the documented substitution. -/
theorem C1_divergence_at_failing_input :
    occursIn "specs/tasks/[[feature-name]]"
      (format_prompt "login-flow" "Add OAuth login." none) ∧
    ¬ occursIn "specs/tasks/login-flow"
      (format_prompt "login-flow" "Add OAuth login." none) := by
  constructor
  · rw [format_prompt_none, rendered_lines]
    exact (occursIn_joinLines _ (by decide) (by decide) _).mpr (by decide)
  · rw [format_prompt_none, rendered_lines]
    intro h
    exact absurd ((occursIn_joinLines _ (by decide) (by decide) _).mp h) (by decide)

set_option maxRecDepth 40000 in
set_option maxHeartbeats 1000000 in
/-- C2 counterexample: with context_text present but empty (non-null),
no Existing Context section heading appears in the output; and with
context_text absent, a spec_text that itself holds the heading makes
the output contain it, so the zero-occurrences reading fails too. -/
theorem C2_counterexample :
    ¬ occursIn "## Existing Context:" (format_prompt "x" "spec text" (some "")) ∧
    occursIn "## Existing Context:" (format_prompt "x" "## Existing Context:" none) := by
  constructor
  · rw [format_prompt_someEmpty, rendered_lines]
    intro h
    exact absurd ((occursIn_joinLines _ (by decide) (by decide) _).mp h) (by decide)
  · rw [format_prompt_none]
    show _ <:+: _
    rw [strDataAppend, strDataAppend]
    exact List.infix_append _ _ _

set_option maxRecDepth 40000 in
set_option maxHeartbeats 1000000 in
/-- C2 (amended): when context_text is present and nonempty,
format_prompt appends the Existing Context section (heading, then the
context inside its own fenced block) after the main rendered template;
when context_text is absent or empty no section is appended and the
output equals the no-context rendering; the fixed template text itself
holds no occurrence of the heading, so with no (or empty) context the
heading can only come from the substituted spec text. -/
theorem C2_context_section_conditional (f s : String) (c : Option String) :
    (∀ ct, c = some ct → ct ≠ "" →
      format_prompt f s c = format_prompt f s none ++
        ("\n\n## Existing Context:\n\n```markdown\n" ++ ct ++ "\n```")) ∧
    ((c = none ∨ c = some "") → format_prompt f s c = format_prompt f s none) ∧
    ¬ occursIn "## Existing Context:" mainTemplate := by
  refine ⟨?_, ?_, ?_⟩
  · rintro ct rfl hct
    rw [format_prompt_some f s ct hct, format_prompt_none]
    simp only [strAppendAssoc]
    rfl
  · rintro (rfl | rfl)
    · rfl
    · rw [format_prompt_someEmpty, format_prompt_none]
  · show ¬ occursIn _ (joinLines templateLines)
    intro h
    exact absurd ((occursIn_joinLines _ (by decide) (by decide) _).mp h) (by decide)

/-- Witness for C2: the amended claim applied at a concrete nonempty
context. -/
theorem C2_context_section_conditional_witness :
    format_prompt "a" "b" (some "c") = format_prompt "a" "b" none ++
      ("\n\n## Existing Context:\n\n```markdown\n" ++ "c" ++ "\n```") :=
  (C2_context_section_conditional "a" "b" (some "c")).1 "c" rfl (by decide)

/-- C3: format_prompt is deterministic: two renderings with identical
argument triples give identical output strings.  In this embedding the
renderer is a total function of exactly these arguments: the source
consults no clock, randomness, environment or mutable global, and
mutates nothing, so equal inputs force equal outputs. -/
theorem C3_format_prompt_deterministic (f1 s1 : String) (c1 : Option String)
    (f2 s2 : String) (c2 : Option String)
    (hf : f1 = f2) (hs : s1 = s2) (hc : c1 = c2) :
    format_prompt f1 s1 c1 = format_prompt f2 s2 c2 := by
  subst hf
  subst hs
  subst hc
  rfl

/-- Witness for C3 at a concrete input triple. -/
theorem C3_format_prompt_deterministic_witness :
    format_prompt "a" "b" (some "c") = format_prompt "a" "b" (some "c") :=
  C3_format_prompt_deterministic "a" "b" (some "c") "a" "b" (some "c") rfl rfl rfl

/-- C4: the rendered document contains spec_text verbatim inside the
fenced block under the Project/Feature Specification heading, and it
contains context_text verbatim whenever context_text is non-null. -/
theorem C4_verbatim_inclusion (f s : String) (c : Option String) :
    (∃ u v, format_prompt f s c =
      u ++ ("## Project/Feature Specification:\n\n```markdown\n" ++ s ++ "\n```") ++ v) ∧
    (∀ ct, c = some ct → ∃ u v, format_prompt f s c = u ++ ct ++ v) := by
  constructor
  · cases c with
    | none =>
      refine ⟨specPre, "", ?_⟩
      rw [format_prompt_none, specPart1_split, strAppendNil]
      simp only [strAppendAssoc]
      rfl
    | some ct =>
      by_cases hct : ct = ""
      · subst hct
        refine ⟨specPre, "", ?_⟩
        rw [format_prompt_someEmpty, specPart1_split, strAppendNil]
        simp only [strAppendAssoc]
        rfl
      · refine ⟨specPre, ctxPart1 ++ ct ++ ctxPart2, ?_⟩
        rw [format_prompt_some f s ct hct, specPart1_split]
        simp only [strAppendAssoc]
        rfl
  · rintro ct rfl
    by_cases hct : ct = ""
    · subst hct
      refine ⟨format_prompt f s (some ""), "", ?_⟩
      rw [strAppendNil, strAppendNil]
    · refine ⟨specPart1 ++ s ++ specPart2 ++ ctxPart1, ctxPart2, ?_⟩
      rw [format_prompt_some f s ct hct]

/-- Witness for C4: context inclusion at a concrete triple. -/
theorem C4_verbatim_inclusion_witness :
    ∃ u v, format_prompt "a" "b" (some "c") = u ++ "c" ++ v :=
  (C4_verbatim_inclusion "a" "b" (some "c")).2 "c" rfl

/-- C5: when a spec-file path is supplied standard input is never
read, whatever the filesystem holds; when it is omitted (and a context
file, if supplied, opens), the program reads all of standard input and
uses it as the specification text. -/
theorem C5_input_source_precedence (fs : String → Option String) (stdin f : String) :
    (∀ p cf, (runMain fs stdin f (some p) cf).stdinRead = false) ∧
    (∀ cf, (∀ q, cf = some q → (fs q).isSome) →
      (runMain fs stdin f none cf).stdinRead = true ∧
      (runMain fs stdin f none cf).stdout =
        format_prompt f stdin (match cf with | some q => fs q | none => none) ++ "\n") := by
  constructor
  · intro p cf
    cases hp : fs p with
    | none => simp [runMain, hp]
    | some spec =>
      cases cf with
      | none => simp [runMain, hp]
      | some q =>
        cases hq : fs q with
        | none => simp [runMain, hp, hq]
        | some ctx => simp [runMain, hp, hq]
  · intro cf hcf
    cases cf with
    | none => exact ⟨rfl, rfl⟩
    | some q =>
      cases hq : fs q with
      | none =>
        have h2 := hcf q rfl
        rw [hq] at h2
        simp at h2
      | some ctx => exact ⟨by simp [runMain, hq], by simp [runMain, hq]⟩

/-- Witness for C5 at a concrete filesystem and argument set. -/
theorem C5_input_source_precedence_witness :
    (runMain (fun _ => none) "in" "f" (some "spec.md") none).stdinRead = false ∧
    (runMain (fun _ => none) "in" "f" none none).stdinRead = true ∧
    (runMain (fun _ => none) "in" "f" none none).stdout = format_prompt "f" "in" none ++ "\n" :=
  ⟨(C5_input_source_precedence (fun _ => none) "in" "f").1 "spec.md" none,
   ((C5_input_source_precedence (fun _ => none) "in" "f").2 none
     (fun _ h => Option.noConfusion h)).1,
   ((C5_input_source_precedence (fun _ => none) "in" "f").2 none
     (fun _ h => Option.noConfusion h)).2⟩

/-- C6: when a supplied spec file or context file cannot be opened the
process exits nonzero with a message on the error stream and writes
nothing to standard output. -/
theorem C6_file_error_handling (fs : String → Option String) (stdin f : String)
    (sf cf : Option String)
    (h : (∃ p, sf = some p ∧ fs p = none) ∨ (∃ q, cf = some q ∧ fs q = none)) :
    (runMain fs stdin f sf cf).exitCode ≠ 0 ∧
    (runMain fs stdin f sf cf).stdout = "" ∧
    (runMain fs stdin f sf cf).stderr ≠ "" := by
  cases sf with
  | some p =>
    cases hp : fs p with
    | none =>
      refine ⟨?_, ?_, ?_⟩
      · simp [runMain, hp, usageErrorExit]
      · simp [runMain, hp]
      · simp only [runMain, hp]
        exact clickBadFileMsg_ne_empty _ _
    | some spec =>
      rcases h with ⟨p2, hp2, hfp2⟩ | ⟨q, hq, hfq⟩
      · injection hp2 with hpp
        subst hpp
        rw [hp] at hfp2
        exact Option.noConfusion hfp2
      · subst hq
        refine ⟨?_, ?_, ?_⟩
        · simp [runMain, hp, hfq, usageErrorExit]
        · simp [runMain, hp, hfq]
        · simp only [runMain, hp, hfq]
          exact clickBadFileMsg_ne_empty _ _
  | none =>
    rcases h with ⟨p, hp, _⟩ | ⟨q, hq, hfq⟩
    · exact Option.noConfusion hp
    · subst hq
      refine ⟨?_, ?_, ?_⟩
      · simp [runMain, hfq, usageErrorExit]
      · simp [runMain, hfq]
      · simp only [runMain, hfq]
        exact clickBadFileMsg_ne_empty _ _

/-- Witness for C6: a missing spec file at a concrete invocation. -/
theorem C6_file_error_handling_witness :
    (runMain (fun _ => none) "" "f" (some "spec.md") none).exitCode ≠ 0 ∧
    (runMain (fun _ => none) "" "f" (some "spec.md") none).stdout = "" ∧
    (runMain (fun _ => none) "" "f" (some "spec.md") none).stderr ≠ "" :=
  C6_file_error_handling (fun _ => none) "" "f" (some "spec.md") none
    (Or.inl ⟨"spec.md", rfl, rfl⟩)

/-- C7: on every successful invocation standard output carries exactly
the rendered document plus one trailing newline, and the error stream
carries exactly the informational prompt when standard input is used
and nothing otherwise. -/
theorem C7_stream_separation (fs : String → Option String) (stdin f : String)
    (sf cf : Option String) (h : (runMain fs stdin f sf cf).exitCode = 0) :
    (runMain fs stdin f sf cf).stdout =
      format_prompt f (match sf with | some p => (fs p).getD "" | none => stdin)
        (match cf with | some q => fs q | none => none) ++ "\n" ∧
    (runMain fs stdin f sf cf).stderr =
      (match sf with | some _ => "" | none => promptMsg) := by
  cases sf with
  | some p =>
    cases hp : fs p with
    | none => simp [runMain, hp, usageErrorExit] at h
    | some spec =>
      cases cf with
      | none => exact ⟨by simp [runMain, hp], by simp [runMain, hp]⟩
      | some q =>
        cases hq : fs q with
        | none => simp [runMain, hp, hq, usageErrorExit] at h
        | some ctx => exact ⟨by simp [runMain, hp, hq], by simp [runMain, hp, hq]⟩
  | none =>
    cases cf with
    | none => exact ⟨rfl, rfl⟩
    | some q =>
      cases hq : fs q with
      | none => simp [runMain, hq, usageErrorExit] at h
      | some ctx => exact ⟨by simp [runMain, hq], by simp [runMain, hq]⟩

/-- Witness for C7 at a concrete successful invocation. -/
theorem C7_stream_separation_witness :
    (runMain (fun _ => some "S") "in" "f" (some "spec.md") none).stdout =
      format_prompt "f" "S" none ++ "\n" ∧
    (runMain (fun _ => some "S") "in" "f" (some "spec.md") none).stderr = "" :=
  C7_stream_separation (fun _ => some "S") "in" "f" (some "spec.md") none rfl

/-- C8: an empty specification is accepted: with an empty standard
input, or a spec file with empty contents, the run succeeds with exit
code 0 and the rendered document, whose specification section is an
empty fenced block. -/
theorem C8_empty_spec_accepted (f p : String) (fs : String → Option String)
    (hp : fs p = some "") :
    ((runMain fs "" f none none).exitCode = 0 ∧
      (runMain fs "" f none none).stdout = format_prompt f "" none ++ "\n") ∧
    ((runMain fs "" f (some p) none).exitCode = 0 ∧
      (runMain fs "" f (some p) none).stdout = format_prompt f "" none ++ "\n") ∧
    occursIn "## Project/Feature Specification:\n\n```markdown\n\n```"
      (format_prompt f "" none) := by
  refine ⟨⟨rfl, rfl⟩, ⟨?_, ?_⟩, ?_⟩
  · simp [runMain, hp]
  · simp [runMain, hp]
  · rw [format_prompt_none]
    show _ <:+: _
    have hpat : ("## Project/Feature Specification:\n\n```markdown\n\n```" : String) =
        specHead ++ specPart2 := by decide
    rw [hpat, specPart1_split]
    refine ⟨specPre.data, [], ?_⟩
    simp [strDataAppend, List.append_assoc, show ("" : String).data = [] from rfl]

/-- Witness for C8 at a concrete filesystem. -/
theorem C8_empty_spec_accepted_witness :
    ((runMain (fun _ => some "") "" "f" none none).exitCode = 0 ∧
      (runMain (fun _ => some "") "" "f" none none).stdout =
        format_prompt "f" "" none ++ "\n") ∧
    ((runMain (fun _ => some "") "" "f" (some "spec.md") none).exitCode = 0 ∧
      (runMain (fun _ => some "") "" "f" (some "spec.md") none).stdout =
        format_prompt "f" "" none ++ "\n") ∧
    occursIn "## Project/Feature Specification:\n\n```markdown\n\n```"
      (format_prompt "f" "" none) :=
  C8_empty_spec_accepted "f" "spec.md" (fun _ => some "") rfl

set_option maxRecDepth 40000 in
set_option maxHeartbeats 1000000 in
/-- C9: the rendered document never depends on feature_name: the
template text holds the literal [[feature-name]] placeholder and no
feature_name replacement field, so the keyword argument is never
consumed and any two feature names give byte-identical output. -/
theorem C9_feature_name_ignored (f1 f2 s : String) (c : Option String) :
    format_prompt f1 s c = format_prompt f2 s c ∧
    occursIn "specs/tasks/[[feature-name]]" mainTemplate ∧
    ¬ occursIn "\x7bfeature_name\x7d" mainTemplate := by
  refine ⟨?_, ?_, ?_⟩
  · cases c with
    | none => rw [format_prompt_none, format_prompt_none]
    | some ct =>
      by_cases hct : ct = ""
      · subst hct
        rw [format_prompt_someEmpty, format_prompt_someEmpty]
      · rw [format_prompt_some f1 s ct hct, format_prompt_some f2 s ct hct]
  · show occursIn _ (joinLines templateLines)
    exact (occursIn_joinLines _ (by decide) (by decide) _).mpr (by decide)
  · show ¬ occursIn _ (joinLines templateLines)
    intro h
    exact absurd ((occursIn_joinLines _ (by decide) (by decide) _).mp h) (by decide)

/-- C10: an empty (non-null) context suppresses the Existing Context
section entirely because of the truthiness guard, the section is
appended exactly when the context is a nonempty string, and a context
file with empty contents reaches format_prompt as the empty string and
yields the no-context document. -/
theorem C10_empty_context_suppressed (f s : String) :
    format_prompt f s (some "") = format_prompt f s none ∧
    (∀ c : String, c ≠ "" →
      format_prompt f s (some c) = format_prompt f s none ++
        ("\n\n## Existing Context:\n\n```markdown\n" ++ c ++ "\n```")) ∧
    (∀ (fs : String → Option String) (p q spec : String),
      fs p = some spec → fs q = some "" →
      (runMain fs "" f (some p) (some q)).stdout = format_prompt f spec none ++ "\n") := by
  refine ⟨?_, ?_, ?_⟩
  · rw [format_prompt_someEmpty, format_prompt_none]
  · intro c hc
    rw [format_prompt_some f s c hc, format_prompt_none]
    simp only [strAppendAssoc]
    rfl
  · intro fs p q spec hfp hfq
    have h1 : (runMain fs "" f (some p) (some q)).stdout =
        format_prompt f spec (some "") ++ "\n" := by
      simp [runMain, hfp, hfq]
    rw [h1, format_prompt_someEmpty, format_prompt_none]

/-- Witness for C10: a nonempty context and an empty context file at
concrete inputs. -/
theorem C10_empty_context_suppressed_witness :
    format_prompt "a" "b" (some "c") = format_prompt "a" "b" none ++
      ("\n\n## Existing Context:\n\n```markdown\n" ++ "c" ++ "\n```") ∧
    (runMain (fun _ => some "") "" "a" (some "p") (some "q")).stdout =
      format_prompt "a" "" none ++ "\n" :=
  ⟨(C10_empty_context_suppressed "a" "b").2.1 "c" (by decide),
   (C10_empty_context_suppressed "a" "b").2.2 (fun _ => some "") "p" "q" "" rfl rfl⟩
